import Mathlib

/-!
# Verification of the dreo-headwind performance-to-actuation control loop

A shallow embedding, in Lean 4, of the core algorithms of the dreo-headwind
repository: the zone mapper (`getZoneIndex`, `convertHeartRateZones`,
`convertPowerZones`), the temperature compensation (`adjustSpeedForTemperature`),
the fan-speed derivation (`convertFanSpeed`, `calculateFanSpeedFromAnt`), the
decision cycle (`adjustFanProfile` of `PowerHeartRateMode`), the performance
aggregator (`accumulatePower` and friends of `PerformanceMetrics`), and the
sensor-event dedup of the ANT connector (`onData`).

Conventions of the embedding:
* JavaScript numbers are modelled as exact rationals (`ℚ`).  `Math.round` is
  `jround` (round half toward positive infinity, as in JavaScript),
  `Math.floor` is `Rat.floor`.
* A JavaScript value that may be `null`/`undefined` (or `NaN` where the code
  only ever tests it with `isNaN`) is modelled as `Option ℚ`.
* The stateful methods of `PowerHeartRateMode` and `PerformanceMetrics` are
  modelled as explicit state-passing functions; the asynchronous actuator sink
  (`DreoAPI`) is modelled by the outcome of each of its calls
  (`SinkOutcome`), and an awaited call that rejects aborts the decision
  function at that point with all mutations so far retained (JavaScript
  `async`/`await` semantics with no `try`/`finally` in the source).
-/

/-- JavaScript `Math.round`: round half toward positive infinity.
(`Rat.floor` rather than `Int.floor` keeps the definition kernel-reducible.) -/
def jround (q : ℚ) : ℤ := (q + 1/2).floor

theorem jround_eq_floor (q : ℚ) : jround q = ⌊q + 1/2⌋ := by
  rw [jround, Rat.floor_def', Rat.floor_def]

/-! ## Zone mapper (`PerformanceMetrics.ts` lines 303-348, `PowerHeartRateMode` lines 315-360) -/

/-- JavaScript `Array.prototype.findIndex`: index of the first element
satisfying `p`, `-1` if none does. -/
def findIndexJS {α : Type} (p : α → Bool) : List α → ℤ
  | [] => -1
  | x :: xs =>
    if p x then 0
    else
      let r := findIndexJS p xs
      if r < 0 then -1 else r + 1

/-- `getZoneIndex(value, zones)`:
```
if (value < zones[0][0]) return 1;
if (value >= zones[zones.length-1][1]) return zones.length;
return zones.findIndex(([min,max]) => value >= min && value <= max) + 1;
```
A zone is a `(min, max)` pair. -/
def getZoneIndex (value : ℚ) (zones : List (ℚ × ℚ)) : ℤ :=
  if value < (zones.headD (0, 0)).1 then 1
  else if value ≥ (zones.getLastD (0, 0)).2 then zones.length
  else findIndexJS (fun z => decide (value ≥ z.1) && decide (value ≤ z.2)) zones + 1

/-- The `zones.map` loop shared by `convertHeartRateZones` and
`convertPowerZones`: carries `minCache` (each output zone's min is forced to
the previous zone's rounded max); `boundOf` is the scale-and-round of one
percentage edge. -/
def convertZonesAux (boundOf : ℚ → ℤ) : ℤ → List (ℚ × ℚ) → List (ℤ × ℤ)
  | _, [] => []
  | minCache, entry :: rest =>
    let newMax := boundOf entry.2
    (minCache, newMax) :: convertZonesAux boundOf newMax rest

/-- `convertHeartRateZones(rest, max, zones)`: Karvonen transform
`round(pct/100 * (max - rest) + rest)` of each percentage edge, with each
zone's min forced to the previous zone's max. -/
def convertHeartRateZones (rest maxHr : ℚ) (zones : List (ℚ × ℚ)) : List (ℤ × ℤ) :=
  let hrReserve := maxHr - rest
  convertZonesAux (fun pct => jround (pct / 100 * hrReserve + rest))
    (jround ((zones.headD (0, 0)).1 / 100 * hrReserve + rest)) zones

/-- `convertPowerZones(ftp, zones)`: `round(pct * ftp / 100)` of each
percentage edge, with each zone's min forced to the previous zone's max. -/
def convertPowerZones (ftp : ℚ) (zones : List (ℚ × ℚ)) : List (ℤ × ℤ) :=
  convertZonesAux (fun pct => jround (pct * ftp / 100))
    (jround ((zones.headD (0, 0)).1 * ftp / 100)) zones

/-- Adjacent zones share their boundary: `zones[i].max == zones[i+1].min`. -/
def ZonesContiguous (l : List (ℤ × ℤ)) : Prop :=
  List.Chain' (fun a b => a.2 = b.1) l

/-- Every zone is a nonempty range and the ranges strictly increase. -/
def ZonesStrictIncr (l : List (ℤ × ℤ)) : Prop :=
  (∀ z ∈ l, z.1 < z.2) ∧ List.Chain' (fun a b => a.1 < b.1 ∧ a.2 < b.2) l

instance : DecidablePred ZonesContiguous := fun l =>
  inferInstanceAs (Decidable (List.Chain' _ l))

instance : DecidablePred ZonesStrictIncr := fun l =>
  inferInstanceAs (Decidable ((∀ z ∈ l, z.1 < z.2) ∧ List.Chain' _ l))

/-! ## Temperature compensation (`PowerHeartRateMode` lines 379-382) -/

/-- `adjustSpeedForTemperature(speed, temperature)`: the quadratic
`0.005·T² − 0.6·T + 16.875` (exactly `T²/200 − 3T/5 + 135/8`) added to the
speed; `!temperature` short-circuits, so both `null` (the fan is off) and a
temperature of exactly `0` return the speed unchanged. -/
def adjustSpeedForTemperature (speed : ℚ) (temperature : Option ℚ) : ℚ :=
  match temperature with
  | none => speed
  | some t =>
    if t = 0 then speed
    else speed + (1/200) * t ^ 2 - (3/5) * t + 135/8

/-! ## Fan-Profile Controller (`PowerHeartRateMode`) -/

/-- The oscillation patterns of `DreoProfileType` (`DreoProfile.ts`). -/
inductive DreoProfileType
  | CENTER_0
  | CENTER_30
  | CENTER_45
  | HORIZONTAL
  | VERTICAL
  | HORIZONTAL_VERTICAL
deriving DecidableEq

/-- The fields of the appliance state read through `DreoAPI.getState` that
`adjustFanProfile` consumes. -/
structure DreoState where
  poweron : Bool
  temperature : ℚ
  windlevel : ℚ
deriving DecidableEq

/-- `this.stateCache.fanSetting`. -/
structure FanSetting where
  speed : ℤ
  profile : DreoProfileType
deriving DecidableEq

/-- `this.stateCache.antData`. -/
structure AntData where
  hrAvg : ℤ
  pwrAvg : ℤ
deriving DecidableEq

/-- The mutable state of a `PowerHeartRateMode` instance that the decision
cycle `adjustFanProfile` reads and writes.  The two `DataSmoother`s are
abstracted by their current output (`smoothHrAvg`, `smoothPwrAvg` model
`this.smoothHeartRate.getAverage()` and `this.smoothPower.getAverage()`). -/
structure CtlState where
  isDreoBusy : Bool
  fanSetting : FanSetting
  antData : AntData
  oscillationFrequency : ℚ
  oscillationLastUpdate : ℚ
  oscillationDuration : ℚ
  hrWeight : ℚ
  pwrWeight : ℚ
  hrZones : List (ℚ × ℚ)
  pwrZones : List (ℚ × ℚ)
  smoothHrAvg : ℚ
  smoothPwrAvg : ℚ
deriving DecidableEq

/-- The weight-related fields set by the `PowerHeartRateMode` constructor
(lines 107-115).  `warned` records that `logger.warn` fired. -/
structure WeightsState where
  warned : Bool
  hrWeight : ℚ
  pwrWeight : ℚ
deriving DecidableEq

/-- The constructor's weight initialization, statement by statement:
```
const hrWeight = modeconfig.heartRateWeight;
const pwrWeight = modeconfig.powerWeight;
if (hrWeight + pwrWeight !== 1) {
    this.logger.warn('...');
    this.hrWeight = 0.5;
    this.pwrWeight = 0.5;
}
this.hrWeight = hrWeight;
this.pwrWeight = pwrWeight;
```
The two assignments after the `if` block run unconditionally. -/
def constructorWeights (hrWeight pwrWeight : ℚ) : WeightsState :=
  let st0 : WeightsState := { warned := false, hrWeight := 0, pwrWeight := 0 }
  let st1 :=
    if hrWeight + pwrWeight ≠ 1 then
      { st0 with warned := true, hrWeight := 1/2, pwrWeight := 1/2 }
    else st0
  { st1 with hrWeight := hrWeight, pwrWeight := pwrWeight }

/-- `convertFanSpeed(minZoneValue, maxZoneValue, zoneIndex, zoneValue, zoneSize)`
(lines 409-428): linear interpolation of the sample's position within its zone
onto the zone's fan-speed sub-range, clamped to `[0, 9]`. -/
def convertFanSpeed (minZoneValue maxZoneValue : ℚ) (zoneIndex : ℤ) (zoneValue : ℚ)
    (zoneSize : ℕ) : ℤ :=
  let minFanSpeed : ℚ := 0
  let maxFanSpeed : ℚ := 9
  let fanSpeedRangePerZone := (maxFanSpeed - minFanSpeed) / zoneSize
  let baseSpeed := minFanSpeed + zoneIndex * fanSpeedRangePerZone
  let zoneMaxSpeed := (baseSpeed + fanSpeedRangePerZone).floor
  let zoneMinSpeed := baseSpeed.floor
  let normalized := (zoneValue - minZoneValue) / (maxZoneValue - minZoneValue)
  let fanSpeed := jround (zoneMinSpeed + normalized * (zoneMaxSpeed - zoneMinSpeed))
  min (max fanSpeed 0) 9

/-- `calculateFanSpeedFromAnt(temperature)` (lines 154-178): round the smoothed
averages into `stateCache.antData`, classify each into its zone, interpolate a
fan speed per signal, blend by the configured weights, apply temperature
compensation and clamp to `[1, 9]`.  Returns the updated state and the speed. -/
def calculateFanSpeedFromAnt (st : CtlState) (temperature : Option ℚ) : CtlState × ℤ :=
  let hrAvg := jround st.smoothHrAvg
  let pwrAvg := jround st.smoothPwrAvg
  let st := { st with antData := { hrAvg := hrAvg, pwrAvg := pwrAvg } }
  let hrZone := getZoneIndex hrAvg st.hrZones
  let pwrZone := getZoneIndex pwrAvg st.pwrZones
  let hrBounds := st.hrZones.getD (hrZone - 1).toNat (0, 0)
  let hrFanSpeed := convertFanSpeed hrBounds.1 hrBounds.2 hrZone hrAvg st.hrZones.length
  let pwrBounds := st.pwrZones.getD (pwrZone - 1).toNat (0, 0)
  let pwrFanSpeed := convertFanSpeed pwrBounds.1 pwrBounds.2 pwrZone pwrAvg st.pwrZones.length
  let fanSpeed : ℚ := st.hrWeight * hrFanSpeed + st.pwrWeight * pwrFanSpeed
  let fanSpeed := max 1 (min (jround (adjustSpeedForTemperature fanSpeed temperature)) 9)
  (st, fanSpeed)

/-- The `switch (calculatedSpeed)` of `adjustFanProfile` (lines 216-237):
speed bucket to oscillation profile. -/
def speedToProfile (calculatedSpeed : ℤ) : DreoProfileType :=
  if calculatedSpeed = 0 ∨ calculatedSpeed = 1 then .CENTER_0
  else if calculatedSpeed = 2 ∨ calculatedSpeed = 3 then .CENTER_30
  else if calculatedSpeed = 4 ∨ calculatedSpeed = 5 ∨ calculatedSpeed = 6 ∨ calculatedSpeed = 7
    then .CENTER_45
  else .VERTICAL

/-- Step 4 of `adjustFanProfile` (lines 204-237): the oscillation override and
the speed-bucket profile mapping.  Returns the chosen profile and the state
(whose `oscillationLastUpdate` is reset when the override window has fully
elapsed). -/
def selectFanProfile (st : CtlState) (now : ℚ) (calculatedSpeed : ℤ) :
    DreoProfileType × CtlState :=
  if now - st.oscillationLastUpdate ≥ st.oscillationFrequency then
    if now - st.oscillationLastUpdate ≥ st.oscillationFrequency + st.oscillationDuration then
      (.VERTICAL, { st with oscillationLastUpdate := now })
    else
      (.VERTICAL, st)
  else
    (speedToProfile calculatedSpeed, st)

/-- The outcome of one awaited `DreoAPI` promise: fulfilled with a value, or
rejected. -/
inductive SinkOutcome (α : Type)
  | ok (value : α)
  | rejected
deriving DecidableEq

/-- The outcome of each asynchronous `DreoAPI` call awaited inside one run of
`adjustFanProfile`. -/
structure DreoSink where
  getStateResult : SinkOutcome (Option DreoState)
  powerOnResult : SinkOutcome Unit
  applyResult : SinkOutcome Unit
deriving DecidableEq

/-- An actuator command issued to the sink. -/
inductive FanCommand
  | powerOn (flag : Bool)
  | applyProfile (profile : DreoProfileType) (speed : ℤ)
deriving DecidableEq

/-- The observable outcome of one invocation of `adjustFanProfile`: the final
controller state, the actuator commands issued (in order), and whether the
async function aborted on a rejected `await` (in the source there is no
`try`/`finally`, so a rejection propagates as an unhandled rejection). -/
structure AdjustResult where
  state : CtlState
  commands : List FanCommand
  threw : Bool
deriving DecidableEq

/-- `dreoState?.poweron || false` (line 197). -/
def dreoIsOn : Option DreoState → Bool
  | none => false
  | some st => st.poweron

/-- `isDreoOn ? dreoState?.temperature : null` (line 198). -/
def dreoTemperature (dreoState : Option DreoState) : Option ℚ :=
  if dreoIsOn dreoState then dreoState.map (·.temperature) else none

/-- `isDreoOn ? dreoState?.windlevel : null` (line 199). -/
def dreoWindlevel (dreoState : Option DreoState) : Option ℚ :=
  if dreoIsOn dreoState then dreoState.map (·.windlevel) else none

/-- `adjustFanProfile(now)` (lines 185-264), with each awaited sink call taken
from `sink`.  A rejected `await` aborts the function at that point, keeping
every mutation made so far — in particular `isDreoBusy`, which is set to
`true` before the first `await` and only reset to `false` on the two normal
exits. -/
def adjustFanProfile (st : CtlState) (sink : DreoSink) (now : ℚ) : AdjustResult :=
  -- Ignore call if busy
  if st.isDreoBusy then
    { state := st, commands := [], threw := false }
  else
    -- Sets device to 'busy'
    let st := { st with isDreoBusy := true }
    -- Step 1: Gather data from fan
    match sink.getStateResult with
    | .rejected => { state := st, commands := [], threw := true }
    | .ok dreoState =>
      let isDreoOn := dreoIsOn dreoState
      let temperature := dreoTemperature dreoState
      let currentSpeed := dreoWindlevel dreoState
      -- Step 2: Calculate speed based on ANT sensor data and temperature
      let calculated := calculateFanSpeedFromAnt st temperature
      let st := calculated.1
      let calculatedSpeed := calculated.2
      -- Step 4: Adjust fan profile (including oscillation override)
      let selected := selectFanProfile st now calculatedSpeed
      let fanProfile := selected.1
      let st := selected.2
      -- Step 5: Detect fan settings change
      if st.fanSetting.profile = fanProfile ∧ currentSpeed = some (calculatedSpeed : ℚ) then
        { state := { st with isDreoBusy := false }, commands := [], threw := false }
      else
        let st := { st with fanSetting := { profile := fanProfile, speed := calculatedSpeed } }
        if isDreoOn then
          match sink.applyResult with
          | .rejected =>
            { state := st, commands := [.applyProfile fanProfile calculatedSpeed], threw := true }
          | .ok _ =>
            { state := { st with isDreoBusy := false },
              commands := [.applyProfile fanProfile calculatedSpeed], threw := false }
        else
          match sink.powerOnResult with
          | .rejected => { state := st, commands := [.powerOn true], threw := true }
          | .ok _ =>
            match sink.applyResult with
            | .rejected =>
              { state := st,
                commands := [.powerOn true, .applyProfile fanProfile calculatedSpeed],
                threw := true }
            | .ok _ =>
              { state := { st with isDreoBusy := false },
                commands := [.powerOn true, .applyProfile fanProfile calculatedSpeed],
                threw := false }

/-! ## Performance Aggregator (`PerformanceMetrics.ts`) -/

/-- One entry of `normalizedPowerBuffer` (`TimestampData`). -/
structure TimestampData where
  timestamp : ℚ
  data : ℚ
deriving DecidableEq

/-- `calculateMovingAverage(data)` (lines 357-363). -/
def calculateMovingAverage (data : List TimestampData) : ℚ :=
  if data.length = 0 then 0
  else (data.foldl (fun sum entry => sum + entry.data) 0) / data.length

/-- The `PowerDataApp` record of `PerformanceMetrics`. -/
structure PowerDataApp where
  power : ℚ
  powerMax : ℚ
  powerZone : ℤ
  powerZoneTime : ℤ
  powerZoneTick : ℚ
  cumulativePwr : ℚ
  lastPwrTime : ℚ
  elapsedPwrTime : ℚ
  cumulativeNp : ℚ
  cumulativeNpSize : ℕ
  normalizedPowerWindow : ℚ
  normalizedStartTime : ℚ
  normalizedPowerTick : ℚ
  normalizedPowerBuffer : List TimestampData
deriving DecidableEq

/-- The `HeartRateDataApp` record of `PerformanceMetrics`. -/
structure HeartRateDataApp where
  heartRate : ℚ
  heartRateMax : ℚ
  heartRateZone : ℤ
  heartRateZoneTime : ℤ
  heartRateZoneTick : ℚ
  cumulativeHr : ℚ
  lastHrTime : ℚ
  elapsedHrTime : ℚ
deriving DecidableEq

/-- The `CadenceDataApp` record of `PerformanceMetrics`. -/
structure CadenceDataApp where
  cadence : ℚ
  cadenceMax : ℚ
  cumulativeCad : ℚ
  cumulativeCadSize : ℕ
deriving DecidableEq

/-- `newPowerData(npWindow)` (lines 246-263); `npWindow ?? 30 * 1000`. -/
def newPowerData (npWindow : Option ℚ) : PowerDataApp :=
  { power := 0, powerMax := 0, powerZone := 0, powerZoneTime := 0, powerZoneTick := 0,
    cumulativePwr := 0, lastPwrTime := 0, elapsedPwrTime := 0, cumulativeNp := 0,
    cumulativeNpSize := 0, normalizedPowerWindow := npWindow.getD (30 * 1000),
    normalizedStartTime := 0, normalizedPowerTick := 0, normalizedPowerBuffer := [] }

/-- `newHeartRateData()` (lines 268-279). -/
def newHeartRateData : HeartRateDataApp :=
  { heartRate := 0, heartRateMax := 0, heartRateZone := 0, heartRateZoneTime := 0,
    heartRateZoneTick := 0, cumulativeHr := 0, lastHrTime := 0, elapsedHrTime := 0 }

/-- `newCadenceData()` (lines 284-291). -/
def newCadenceData : CadenceDataApp :=
  { cadence := 0, cadenceMax := 0, cumulativeCad := 0, cumulativeCadSize := 0 }

/-- `accumulatePower(data, now)` (lines 80-118), statement by statement; the
zone table comes from `this.user.pwrZones`. -/
def accumulatePower (pwrZones : List (ℚ × ℚ)) (p : PowerDataApp) (data now : ℚ) :
    PowerDataApp :=
  -- Store current power
  let p := { p with power := data }
  -- Store power max
  let p := if p.powerMax < data then { p with powerMax := data } else p
  -- Compute power zone and time in zone
  let zone := getZoneIndex data pwrZones
  let p :=
    if zone ≠ p.powerZone then
      { p with powerZone := zone, powerZoneTime := 0, powerZoneTick := now }
    else
      { p with powerZoneTime := jround ((now - p.powerZoneTick) / 1000) }
  -- Accumulate the total average
  let dt := (now - p.lastPwrTime) / 1000
  let p :=
    if p.lastPwrTime > 0 ∧ dt > 0 ∧ dt ≤ 5 then
      { p with cumulativePwr := p.cumulativePwr + data * dt,
               elapsedPwrTime := p.elapsedPwrTime + dt }
    else p
  let p := { p with lastPwrTime := now }
  -- Rolling normalized-power buffer
  let buffer := p.normalizedPowerBuffer ++ [{ timestamp := now, data := data }]
  let buffer := buffer.filter (fun entry => now - entry.timestamp ≤ p.normalizedPowerWindow)
  let p := { p with normalizedPowerBuffer := buffer }
  if now - p.normalizedPowerTick ≥ 1000 then
    let movingAveragePower := calculateMovingAverage p.normalizedPowerBuffer
    { p with cumulativeNp := p.cumulativeNp + movingAveragePower ^ 4,
             cumulativeNpSize := p.cumulativeNpSize + 1,
             normalizedPowerTick := now }
  else p

/-- `accumulateHeartRate(data, now)` (lines 120-142). -/
def accumulateHeartRate (hrZones : List (ℚ × ℚ)) (h : HeartRateDataApp) (data now : ℚ) :
    HeartRateDataApp :=
  let h := { h with heartRate := data }
  let h := if h.heartRateMax < data then { h with heartRateMax := data } else h
  let zone := getZoneIndex data hrZones
  let h :=
    if zone ≠ h.heartRateZone then
      { h with heartRateZone := zone, heartRateZoneTime := 0, heartRateZoneTick := now }
    else
      { h with heartRateZoneTime := jround ((now - h.heartRateZoneTick) / 1000) }
  let dt := (now - h.lastHrTime) / 1000
  let h :=
    if h.lastHrTime > 0 ∧ dt > 0 ∧ dt ≤ 5 then
      { h with cumulativeHr := h.cumulativeHr + data * dt,
               elapsedHrTime := h.elapsedHrTime + dt }
    else h
  { h with lastHrTime := now }

/-- `accumulateCadence(data)` (lines 144-154). -/
def accumulateCadence (c : CadenceDataApp) (data : ℚ) : CadenceDataApp :=
  let c := { c with cadence := data }
  let c := if c.cadenceMax < data then { c with cadenceMax := data } else c
  { c with cumulativeCad := c.cumulativeCad + data, cumulativeCadSize := c.cumulativeCadSize + 1 }

/-- The per-signal state of one `PerformanceMetrics` instance. -/
structure MetricsState where
  power : PowerDataApp
  heartRate : HeartRateDataApp
  cadence : CadenceDataApp
deriving DecidableEq

/-- The `aPower` computation of `getPerformanceData()` (lines 157, 164-167):
`cumulativePwr / elapsedPwrTime` when `elapsedPwrTime > 0`, else the initial 0. -/
def averagePowerOf (p : PowerDataApp) : ℚ :=
  if p.elapsedPwrTime > 0 then p.cumulativePwr / p.elapsedPwrTime else 0

/-- The `aHeartRate` computation of `getPerformanceData()` (lines 158, 169-172). -/
def averageHeartRateOf (h : HeartRateDataApp) : ℚ :=
  if h.elapsedHrTime > 0 then h.cumulativeHr / h.elapsedHrTime else 0

/-- The `EventData` payload consumed by `PerformanceMetrics.onDataHandler`:
each signal is either absent (`undefined`) or a number.  (In the connector
composition below these fields are never `NaN`: a `NaN` reading is dropped
before being cached.) -/
structure EventData where
  cadence : Option ℚ
  heartRate : Option ℚ
  averagePower : Option ℚ
deriving DecidableEq

/-- `onDataHandler(data)` of `PerformanceMetrics` (lines 216-233): per signal,
skip if the field is `undefined` (or `NaN`, unrepresentable in `ℚ`),
else accumulate; a fresh power series latches `normalizedStartTime`
(`!this.power.normalizedStartTime`, i.e. it is still falsy `0`). -/
def onDataHandler (pwrZones hrZones : List (ℚ × ℚ)) (m : MetricsState) (data : EventData)
    (now : ℚ) : MetricsState :=
  let m :=
    match data.averagePower with
    | some v =>
      let m :=
        if m.power.normalizedStartTime = 0 then
          { m with power := { m.power with normalizedStartTime := now } }
        else m
      { m with power := accumulatePower pwrZones m.power v now }
    | none => m
  let m :=
    match data.heartRate with
    | some v => { m with heartRate := accumulateHeartRate hrZones m.heartRate v now }
    | none => m
  match data.cadence with
  | some v => { m with cadence := accumulateCadence m.cadence v }
  | none => m

/-! ## Sensor Connection Manager dedup (`AntConnector.ts` lines 204-260) -/

/-- The `AppEventData` cache of `AntConnector`: the event counters start at 0
and the per-signal values start `undefined`. -/
structure AppEventData where
  beatCount : ℚ
  powerCount : ℚ
  cadenceCount : ℚ
  cadence : Option ℚ
  heartRate : Option ℚ
  averagePower : Option ℚ
deriving DecidableEq

/-- The ANT device profiles routed by `onData`. -/
inductive AntProfile
  | PWR
  | FE
  | CAD
  | HR
deriving DecidableEq

/-- One raw sensor reading delivered to `onData`: the measured value (`none`
models `NaN`) and the device event counter (`_0x10_EventCount`,
`CumulativeCadenceRevolutionCount` or `BeatCount`). -/
structure SensorReading where
  value : Option ℚ
  eventCount : ℚ
deriving DecidableEq

/-- The `switch (profile)` of `onData` (lines 205-250): duplicate or `NaN`
readings leave the cache untouched (a debug line is logged); accepted readings
update the signal's event counter and cached value. -/
def onDataCache (profile : AntProfile) (r : SensorReading) (c : AppEventData) : AppEventData :=
  match profile with
  | .PWR =>
    if r.value = none ∨ r.eventCount = c.powerCount then c
    else { c with powerCount := r.eventCount, averagePower := r.value }
  | .FE => c
  | .CAD =>
    if r.value = none ∨ r.eventCount = c.cadenceCount then c
    else { c with cadenceCount := r.eventCount, cadence := r.value }
  | .HR =>
    if r.value = none ∨ r.eventCount = c.beatCount then c
    else { c with beatCount := r.eventCount, heartRate := r.value }

/-- `onData(profile, deviceId, data)` (lines 204-260): run the dedup switch,
then — whenever `shouldHandleData()` holds (both the PWR and HR profiles are
active) — feed the whole cache, stale fields included, to the aggregator and
notify the performance handlers.  Returns the new cache, the new aggregator
state, and whether the performance handlers were invoked with the resulting
performance data. -/
def antOnData (shouldHandleData : Bool) (pwrZones hrZones : List (ℚ × ℚ))
    (profile : AntProfile) (r : SensorReading) (c : AppEventData) (m : MetricsState)
    (now : ℚ) : AppEventData × MetricsState × Bool :=
  let c := onDataCache profile r c
  if shouldHandleData then
    (c, onDataHandler pwrZones hrZones m
          { cadence := c.cadence, heartRate := c.heartRate, averagePower := c.averagePower } now,
      true)
  else
    (c, m, false)

/-! ## Concrete fixtures used by witnesses and counterexamples -/

/-- A small two-zone table. -/
def demoZones : List (ℚ × ℚ) := [(0, 100), (100, 200)]

/-- A `PowerHeartRateMode` state as configured by the sample configuration:
override frequency 10000 ms, duration 5000 ms, equal blend weights. -/
def demoCtl : CtlState :=
  { isDreoBusy := false,
    fanSetting := { speed := 0, profile := .CENTER_0 },
    antData := { hrAvg := 0, pwrAvg := 0 },
    oscillationFrequency := 10000,
    oscillationLastUpdate := 0,
    oscillationDuration := 5000,
    hrWeight := 1/2, pwrWeight := 1/2,
    hrZones := demoZones, pwrZones := demoZones,
    smoothHrAvg := 50, smoothPwrAvg := 50 }

/-- `demoCtl` with a decision cycle already in flight. -/
def busyCtl : CtlState := { demoCtl with isDreoBusy := true }

/-- A sink whose every call fulfills; `getState` resolves to `null`. -/
def okSink : DreoSink := { getStateResult := .ok none, powerOnResult := .ok (), applyResult := .ok () }

/-- A sink whose `getState` promise rejects. -/
def rejectingSink : DreoSink :=
  { getStateResult := .rejected, powerOnResult := .ok (), applyResult := .ok () }

/-! ## C7 — busy-guard exclusivity -/

/-- C7: if `adjustFanProfile` is invoked while a previous invocation is still
in flight (`isDreoBusy` set), it issues no actuator command, modifies no
controller state and does not throw: the invocation is a pure no-op beyond the
debug log. -/
theorem adjustFanProfile_busy_noop (st : CtlState) (sink : DreoSink) (now : ℚ)
    (h : st.isDreoBusy = true) :
    adjustFanProfile st sink now = { state := st, commands := [], threw := false } := by
  simp [adjustFanProfile, h]

/-- Witness for C7 at a concrete busy state. -/
theorem adjustFanProfile_busy_noop_witness :
    busyCtl.isDreoBusy = true ∧
      adjustFanProfile busyCtl okSink 12345 = { state := busyCtl, commands := [], threw := false } :=
  ⟨rfl, adjustFanProfile_busy_noop busyCtl okSink 12345 rfl⟩

/-! ## C10 — temperature 0 / powered-off skip compensation -/

/-- C10: if the appliance reports itself powered off at state-read time, or
the ambient temperature it reports is exactly 0, the temperature passed on is
falsy (`null` resp. `0`), so `adjustSpeedForTemperature` returns the blended
speed unchanged: a temperature of 0 is indistinguishable from
temperature-unavailable at the compensation step. -/
theorem adjustSpeedForTemperature_skip (dreoState : Option DreoState) (speed : ℚ)
    (h : dreoIsOn dreoState = false ∨ dreoTemperature dreoState = some 0) :
    adjustSpeedForTemperature speed (dreoTemperature dreoState) = speed := by
  rcases h with h | h
  · simp [dreoTemperature, h, adjustSpeedForTemperature]
  · rw [h]
    simp [adjustSpeedForTemperature]

/-- Witness for C10: a powered-off appliance reporting 75 °F, and a powered-on
appliance reporting exactly 0 °F. -/
theorem adjustSpeedForTemperature_skip_witness :
    adjustSpeedForTemperature 7
        (dreoTemperature (some { poweron := false, temperature := 75, windlevel := 3 })) = 7 ∧
      adjustSpeedForTemperature 7
        (dreoTemperature (some { poweron := true, temperature := 0, windlevel := 3 })) = 7 :=
  ⟨adjustSpeedForTemperature_skip _ 7 (Or.inl rfl),
   adjustSpeedForTemperature_skip _ 7 (Or.inr rfl)⟩

/-! ## C6 — oscillation override window -/

/-- C6: in a decision cycle at time `now`, if `now - oscillationLastUpdate` is
at least the override frequency the chosen profile is the full-vertical
oscillation regardless of the speed-derived profile; if it additionally
reaches frequency + duration the window start is reset to `now`, and
otherwise the window start is left unchanged (so the next cycle resumes the
speed-derived mapping only after a reset). -/
theorem selectFanProfile_override (st : CtlState) (now : ℚ) (speed : ℤ) :
    (now - st.oscillationLastUpdate ≥ st.oscillationFrequency →
      (selectFanProfile st now speed).1 = DreoProfileType.VERTICAL) ∧
    (now - st.oscillationLastUpdate ≥ st.oscillationFrequency →
      now - st.oscillationLastUpdate ≥ st.oscillationFrequency + st.oscillationDuration →
      (selectFanProfile st now speed).2 = { st with oscillationLastUpdate := now }) ∧
    (now - st.oscillationLastUpdate ≥ st.oscillationFrequency →
      ¬ now - st.oscillationLastUpdate ≥ st.oscillationFrequency + st.oscillationDuration →
      (selectFanProfile st now speed).2 = st) := by
  unfold selectFanProfile
  split_ifs with h1 h2 <;> simp_all

/-- Witness for C6: frequency 10000, duration 5000, window start 0.  At
`now = 16000` both thresholds are crossed: the profile is vertical and the
window restarts; at `now = 12000` only the first is: the profile is vertical
and the window start is kept. -/
theorem selectFanProfile_override_witness :
    (selectFanProfile demoCtl 16000 5).1 = DreoProfileType.VERTICAL ∧
      (selectFanProfile demoCtl 16000 5).2 = { demoCtl with oscillationLastUpdate := 16000 } ∧
      (selectFanProfile demoCtl 12000 5).2 = demoCtl :=
  ⟨(selectFanProfile_override demoCtl 16000 5).1 (by with_unfolding_all decide),
   (selectFanProfile_override demoCtl 16000 5).2.1 (by with_unfolding_all decide)
     (by with_unfolding_all decide),
   (selectFanProfile_override demoCtl 12000 5).2.2 (by with_unfolding_all decide)
     (by with_unfolding_all decide)⟩

/-! ## C3 — blend-weight misconfiguration -/

/-- C3 (the code at the failing input): with `heartRateWeight = powerWeight
= 0.7` the constructor logs the warning, but the unconditional assignments
after the `if` block overwrite the 0.5 defaults, so the controller runs with
the misconfigured weights `0.7`/`0.7`, not with `0.5`/`0.5`. -/
theorem constructorWeights_dead_default :
    constructorWeights (7/10) (7/10) =
      { warned := true, hrWeight := 7/10, pwrWeight := 7/10 } := by
  with_unfolding_all decide

/-! ## C4 — temperature compensation monotonicity -/

/-- C4 counterexample: the quadratic has its vertex at T = 60, so below it the
compensation is decreasing in temperature: at equal base speed, 20 °F yields a
strictly larger adjusted speed than 40 °F. -/
theorem adjustSpeedForTemperature_not_monotone :
    (20 : ℚ) ≤ 40 ∧
      adjustSpeedForTemperature 0 (some 40) < adjustSpeedForTemperature 0 (some 20) := by
  constructor
  · with_unfolding_all decide
  · with_unfolding_all decide

/-- C4 (amended): the temperature compensation is monotonic only from the
quadratic's vertex upward: for every base speed and temperatures
`60 ≤ t1 ≤ t2`, the adjusted speed at `t1` is at most the adjusted speed at
`t2`; below 60 °F the adjustment decreases as temperature rises. -/
theorem adjustSpeedForTemperature_monotone (speed t1 t2 : ℚ) (h60 : 60 ≤ t1)
    (h12 : t1 ≤ t2) :
    adjustSpeedForTemperature speed (some t1) ≤ adjustSpeedForTemperature speed (some t2) := by
  have ht1 : t1 ≠ 0 := by intro h; rw [h] at h60; norm_num at h60
  have ht2 : t2 ≠ 0 := by intro h; rw [h] at h12; nlinarith
  simp only [adjustSpeedForTemperature, if_neg ht1, if_neg ht2]
  nlinarith [mul_nonneg (sub_nonneg.2 h12) (by linarith : (0:ℚ) ≤ t1 + t2 - 120)]

/-- Witness for C4 at `speed = 1`, `t1 = 60`, `t2 = 70`. -/
theorem adjustSpeedForTemperature_monotone_witness :
    (60 : ℚ) ≤ 60 ∧ (60 : ℚ) ≤ 70 ∧
      adjustSpeedForTemperature 1 (some 60) ≤ adjustSpeedForTemperature 1 (some 70) :=
  ⟨le_refl 60, by with_unfolding_all decide,
   adjustSpeedForTemperature_monotone 1 60 70 (le_refl 60) (by with_unfolding_all decide)⟩

/-! ## C2 — busy flag across a throwing sink call -/

/-- C2 counterexample: starting from a non-busy controller, a rejected
`getState` promise aborts the decision cycle (`threw = true`) with
`isDreoBusy` left `true` — there is no `finally`-equivalent release, so the
flag is not reset to `false` when the cycle ends. -/
theorem adjustFanProfile_throw_wedges :
    (adjustFanProfile demoCtl rejectingSink 0).threw = true ∧
      ¬ (adjustFanProfile demoCtl rejectingSink 0).state.isDreoBusy = false := by
  constructor
  · with_unfolding_all decide
  · with_unfolding_all decide

/-- `calculateFanSpeedFromAnt` only rewrites `antData`; in particular it keeps
the busy flag. -/
theorem calculateFanSpeedFromAnt_isDreoBusy (st : CtlState) (t : Option ℚ) :
    (calculateFanSpeedFromAnt st t).1.isDreoBusy = st.isDreoBusy := by
  simp [calculateFanSpeedFromAnt]

/-- `selectFanProfile` only rewrites `oscillationLastUpdate`; in particular it
keeps the busy flag. -/
theorem selectFanProfile_isDreoBusy (st : CtlState) (now : ℚ) (speed : ℤ) :
    (selectFanProfile st now speed).2.isDreoBusy = st.isDreoBusy := by
  unfold selectFanProfile
  split_ifs <;> rfl

/-- C2 (amended): the busy flag is released only on the non-throwing paths:
whenever a sink call inside `adjustFanProfile` rejects (`threw = true`), the
final state has `isDreoBusy = true` (the controller stays wedged as far as
this flag is concerned; the rejection escapes to the process-level
`unhandledRejection` handler), while every cycle that completes without
throwing ends with `isDreoBusy = false` provided it was not skipped as busy. -/
theorem adjustFanProfile_busy_release (st : CtlState) (sink : DreoSink) (now : ℚ) :
    ((adjustFanProfile st sink now).threw = true →
      (adjustFanProfile st sink now).state.isDreoBusy = true) ∧
    (st.isDreoBusy = false → (adjustFanProfile st sink now).threw = false →
      (adjustFanProfile st sink now).state.isDreoBusy = false) := by
  rcases sink with ⟨gs, po, ap⟩
  cases hb : st.isDreoBusy <;>
    cases gs <;> cases po <;> cases ap <;>
      simp only [adjustFanProfile, hb] <;>
      split_ifs <;>
        simp_all [selectFanProfile_isDreoBusy, calculateFanSpeedFromAnt_isDreoBusy]

/-- Witness for C2: the rejecting sink leaves the flag set; the fulfilled sink
run from the same non-busy state resets it. -/
theorem adjustFanProfile_busy_release_witness :
    ((adjustFanProfile demoCtl rejectingSink 0).threw = true →
        (adjustFanProfile demoCtl rejectingSink 0).state.isDreoBusy = true) ∧
      (adjustFanProfile demoCtl okSink 0).state.isDreoBusy = false :=
  ⟨(adjustFanProfile_busy_release demoCtl rejectingSink 0).1,
   (adjustFanProfile_busy_release demoCtl okSink 0).2 rfl (by with_unfolding_all decide)⟩

/-! ## C1 — zone classification boundaries -/

/-- The zone table of the spec's boundary-exactness example:
`[[105,130],[130,142.5],[142.5,155],[155,167.5],[167.5,180]]`. -/
def exampleHrZoneTable : List (ℚ × ℚ) :=
  [(105, 130), (130, 142.5), (142.5, 155), (155, 167.5), (167.5, 180)]

/-- C1 counterexample: at the shared boundary 130 of the example table,
`getZoneIndex` returns zone 1, not zone 2 — `findIndex` tests
`value >= min && value <= max`, so a boundary value already matches the zone
that ends there. -/
theorem getZoneIndex_boundary_counterexample :
    getZoneIndex 130 exampleHrZoneTable ≠ 2 := by
  with_unfolding_all decide

/-- C1 (amended): values below zone 1's min classify as 1 and values at or
above zone N's max classify as N, but a value exactly at a shared zone
boundary belongs to the LOWER zone (the zone whose max it is): on the example
table, `classify(129) = classify(130) = 1` and
`classify(142.5 - 1) = classify(142.5) = 2`, with 131 and 143 falling in
zones 2 and 3. -/
theorem getZoneIndex_spec (zones : List (ℚ × ℚ)) (value : ℚ) :
    (value < (zones.headD (0, 0)).1 → getZoneIndex value zones = 1) ∧
    (¬ value < (zones.headD (0, 0)).1 → (zones.getLastD (0, 0)).2 ≤ value →
      getZoneIndex value zones = zones.length) ∧
    (getZoneIndex 129 exampleHrZoneTable = 1 ∧
      getZoneIndex 130 exampleHrZoneTable = 1 ∧
      getZoneIndex 131 exampleHrZoneTable = 2 ∧
      getZoneIndex (142.5 - 1) exampleHrZoneTable = 2 ∧
      getZoneIndex 142.5 exampleHrZoneTable = 2 ∧
      getZoneIndex 143 exampleHrZoneTable = 3) := by
  refine ⟨fun h => ?_, fun h1 h2 => ?_, ?_⟩
  · rw [getZoneIndex, if_pos h]
  · rw [getZoneIndex, if_neg h1, if_pos (by exact h2)]
  · refine ⟨?_, ?_, ?_, ?_, ?_, ?_⟩ <;> with_unfolding_all decide

/-- Witness for C1: below-range and above-range values on the example table. -/
theorem getZoneIndex_spec_witness :
    getZoneIndex 100 exampleHrZoneTable = 1 ∧
      getZoneIndex 200 exampleHrZoneTable = exampleHrZoneTable.length :=
  ⟨(getZoneIndex_spec exampleHrZoneTable 100).1 (by with_unfolding_all decide),
   (getZoneIndex_spec exampleHrZoneTable 200).2.1 (by with_unfolding_all decide)
     (by with_unfolding_all decide)⟩

/-! ## C9 — time-weighted accumulation guard -/

/-- C9: one `accumulatePower` step advances the time-weighted accumulators
(`cumulativePwr += data·Δt`, `elapsedPwrTime += Δt`, `Δt = (now − last)/1000`)
exactly when a previous sample exists (`lastPwrTime > 0`) and `0 < Δt ≤ 5`
seconds; otherwise both are unchanged.  The reported average is
`cumulativePwr / elapsedPwrTime`, and `0` whenever `elapsedPwrTime` is `0`. -/
theorem accumulatePower_spec (pwrZones : List (ℚ × ℚ)) (p : PowerDataApp) (data now : ℚ) :
    ((p.lastPwrTime > 0 ∧ 0 < (now - p.lastPwrTime) / 1000 ∧ (now - p.lastPwrTime) / 1000 ≤ 5) →
      (accumulatePower pwrZones p data now).cumulativePwr
          = p.cumulativePwr + data * ((now - p.lastPwrTime) / 1000) ∧
        (accumulatePower pwrZones p data now).elapsedPwrTime
          = p.elapsedPwrTime + (now - p.lastPwrTime) / 1000) ∧
    (¬ (p.lastPwrTime > 0 ∧ 0 < (now - p.lastPwrTime) / 1000 ∧ (now - p.lastPwrTime) / 1000 ≤ 5) →
      (accumulatePower pwrZones p data now).cumulativePwr = p.cumulativePwr ∧
        (accumulatePower pwrZones p data now).elapsedPwrTime = p.elapsedPwrTime) ∧
    (p.elapsedPwrTime = 0 → averagePowerOf p = 0) ∧
    (0 < p.elapsedPwrTime → averagePowerOf p = p.cumulativePwr / p.elapsedPwrTime) := by
  refine ⟨fun h => ?_, fun h => ?_, fun h => ?_, fun h => ?_⟩
  · simp only [accumulatePower]
    split_ifs <;> simp_all
  · simp only [accumulatePower]
    split_ifs <;> simp_all
  · simp [averagePowerOf, h]
  · simp [averagePowerOf, h]

/-- A power-signal state with one prior sample at `t = 1000` ms and a
nonzero accumulator. -/
def c9Power : PowerDataApp :=
  { newPowerData none with lastPwrTime := 1000, cumulativePwr := 200, elapsedPwrTime := 2 }

/-- Witness for C9: a second sample 1 s later advances the accumulators, and
the average over the accumulated state is `cumulative / elapsed`. -/
theorem accumulatePower_spec_witness :
    ((accumulatePower demoZones c9Power 100 2000).cumulativePwr
        = c9Power.cumulativePwr + 100 * ((2000 - c9Power.lastPwrTime) / 1000) ∧
      (accumulatePower demoZones c9Power 100 2000).elapsedPwrTime
        = c9Power.elapsedPwrTime + (2000 - c9Power.lastPwrTime) / 1000) ∧
      averagePowerOf c9Power = c9Power.cumulativePwr / c9Power.elapsedPwrTime :=
  ⟨(accumulatePower_spec demoZones c9Power 100 2000).1 (by with_unfolding_all decide),
   (accumulatePower_spec demoZones c9Power 100 2000).2.2.2 (by with_unfolding_all decide)⟩

/-! ## C5 — duplicate / NaN reading suppression -/

/-- A connector cache that has already accepted a power reading with event
counter 1 and value 150 W. -/
def c5Cache : AppEventData :=
  { beatCount := 0, powerCount := 1, cadenceCount := 0,
    cadence := none, heartRate := none, averagePower := some 150 }

/-- A freshly constructed aggregator state. -/
def c5Metrics : MetricsState :=
  { power := newPowerData none, heartRate := newHeartRateData, cadence := newCadenceData }

/-- C5 counterexample: a power reading repeating event counter 1 is discarded
by the dedup switch (the cache is unchanged), yet `onData` still feeds the
whole cache — stale power value included — to the aggregator and still
notifies the performance handlers, so the aggregator's per-signal state
changes and an actuator command can still result from the event. -/
theorem antOnData_duplicate_not_idempotent :
    (antOnData true demoZones demoZones .PWR { value := some 150, eventCount := 1 }
        c5Cache c5Metrics 1000).1 = c5Cache ∧
      (antOnData true demoZones demoZones .PWR { value := some 150, eventCount := 1 }
        c5Cache c5Metrics 1000).2.1 ≠ c5Metrics ∧
      (antOnData true demoZones demoZones .PWR { value := some 150, eventCount := 1 }
        c5Cache c5Metrics 1000).2.2 = true := by
  refine ⟨?_, ?_, ?_⟩ <;> with_unfolding_all decide

/-- C5 (amended): a reading whose event counter equals the last counter seen
for its signal, or whose value is `NaN`, leaves the connector's cached
per-signal value and counter unchanged (only a debug line is logged) — but
the connector still invokes the aggregator with the previously cached values
and still notifies the performance handlers, so aggregator state and actuator
commands are not protected by the dedup. -/
theorem onDataCache_dedup (r : SensorReading) (c : AppEventData) :
    (r.value = none ∨ r.eventCount = c.powerCount → onDataCache .PWR r c = c) ∧
    (r.value = none ∨ r.eventCount = c.cadenceCount → onDataCache .CAD r c = c) ∧
    (r.value = none ∨ r.eventCount = c.beatCount → onDataCache .HR r c = c) := by
  refine ⟨fun h => ?_, fun h => ?_, fun h => ?_⟩ <;>
    · show (if _ ∨ _ then c else _) = c
      exact if_pos h

/-- Witness for C5: the duplicate power reading and a `NaN` heart-rate
reading leave the concrete cache untouched. -/
theorem onDataCache_dedup_witness :
    onDataCache .PWR { value := some 150, eventCount := 1 } c5Cache = c5Cache ∧
      onDataCache .HR { value := none, eventCount := 7 } c5Cache = c5Cache :=
  ⟨(onDataCache_dedup { value := some 150, eventCount := 1 } c5Cache).1 (Or.inr rfl),
   (onDataCache_dedup { value := none, eventCount := 7 } c5Cache).2.2 (Or.inl rfl)⟩

/-! ## C8 — zone contiguity and strict increase -/

/-- The first output zone of the conversion loop starts at the carried
`minCache`. -/
theorem convertZonesAux_head (f : ℚ → ℤ) (l : List (ℚ × ℚ)) (m : ℤ) :
    ∀ b ∈ (convertZonesAux f m l).head?, b.1 = m := by
  cases l <;> simp [convertZonesAux]

/-- The conversion loop always outputs contiguous zones: each zone's min is
the previous zone's max by construction. -/
theorem convertZonesAux_contiguous (f : ℚ → ℤ) (l : List (ℚ × ℚ)) :
    ∀ m : ℤ, ZonesContiguous (convertZonesAux f m l) := by
  induction l with
  | nil => intro m; simp [ZonesContiguous, convertZonesAux]
  | cons e rest ih =>
    intro m
    simp only [convertZonesAux]
    refine List.chain'_cons'.mpr ⟨?_, ih (f e.2)⟩
    intro b hb
    exact (convertZonesAux_head f rest (f e.2) b hb).symm

/-- If the carried min is below every successive rounded edge (a strictly
increasing chain), the conversion loop outputs strictly increasing zones. -/
theorem convertZonesAux_strictIncr (f : ℚ → ℤ) (l : List (ℚ × ℚ)) :
    ∀ m : ℤ, List.Chain (· < ·) m (l.map fun e => f e.2) →
      ZonesStrictIncr (convertZonesAux f m l) := by
  induction l with
  | nil => intro m _; simp [ZonesStrictIncr, convertZonesAux]
  | cons e rest ih =>
    intro m h
    rw [List.map_cons, List.chain_cons] at h
    obtain ⟨hm, hrest⟩ := h
    have iht := ih (f e.2) hrest
    constructor
    · intro z hz
      simp only [convertZonesAux] at hz
      rcases List.mem_cons.mp hz with hz | hz
      · rw [hz]; exact hm
      · exact iht.1 z hz
    · simp only [convertZonesAux]
      refine List.chain'_cons'.mpr ⟨?_, iht.2⟩
      intro b hb
      cases rest with
      | nil => simp [convertZonesAux] at hb
      | cons e2 rest2 =>
        simp only [convertZonesAux, List.head?_cons, Option.mem_def, Option.some.injEq] at hb
        rw [← hb]
        rw [List.map_cons, List.chain_cons] at hrest
        exact ⟨hm, hrest.1⟩

/-- `Math.round` sends points at least 1 apart to strictly increasing
integers. -/
theorem jround_lt_of_add_one_le {a b : ℚ} (h : a + 1 ≤ b) : jround a < jround b := by
  rw [jround_eq_floor, jround_eq_floor]
  have h1 : (⌊a + 1/2⌋ : ℤ) + 1 = ⌊a + 1/2 + 1⌋ := (Int.floor_add_one (a + 1/2)).symm
  have h2 : ⌊a + 1/2 + 1⌋ ≤ ⌊b + 1/2⌋ := Int.floor_le_floor (by linarith)
  omega

/-- Successive values all at least one unit apart, starting from `x`
(executable form of the strict-gap condition on scaled band edges). -/
def edgesOneApart (x : ℚ) : List ℚ → Bool
  | [] => true
  | y :: ys => decide (x + 1 ≤ y) && edgesOneApart y ys

theorem chain_of_edgesOneApart :
    ∀ (x : ℚ) (l : List ℚ), edgesOneApart x l = true →
      List.Chain (fun a b : ℚ => a + 1 ≤ b) x l := by
  intro x l
  induction l generalizing x with
  | nil => intro _; exact .nil
  | cons y ys ih =>
    intro h
    rw [edgesOneApart, Bool.and_eq_true, decide_eq_true_eq] at h
    exact .cons h.1 (ih y h.2)

/-- Rounding a chain of values one apart yields strictly increasing
integers. -/
theorem chain_jround {x : ℚ} {l : List ℚ}
    (h : List.Chain (fun a b : ℚ => a + 1 ≤ b) x l) :
    List.Chain (· < ·) (jround x) (l.map jround) := by
  induction h with
  | nil => exact .nil
  | @cons a b l hab _ ih => exact .cons (jround_lt_of_add_one_le hab) ih

/-- C8 (amended): for every configuration, the built zone tables are
contiguous (`zones[i].max = zones[i+1].min` for every adjacent pair); they
are moreover strictly increasing whenever consecutive configured percentage
edges stay at least one unit apart after scaling (Karvonen for heart rate,
`pct·ftp/100` for power) — without that margin, rounding can collapse a zone
(see the counterexample). -/
theorem convertZones_spec :
    (∀ (rest maxHr : ℚ) (zones : List (ℚ × ℚ)),
        ZonesContiguous (convertHeartRateZones rest maxHr zones)) ∧
    (∀ (ftp : ℚ) (zones : List (ℚ × ℚ)), ZonesContiguous (convertPowerZones ftp zones)) ∧
    (∀ (rest maxHr : ℚ) (zones : List (ℚ × ℚ)),
        edgesOneApart ((zones.headD (0, 0)).1 / 100 * (maxHr - rest) + rest)
            (zones.map fun e => e.2 / 100 * (maxHr - rest) + rest) = true →
        ZonesStrictIncr (convertHeartRateZones rest maxHr zones)) ∧
    (∀ (ftp : ℚ) (zones : List (ℚ × ℚ)),
        edgesOneApart ((zones.headD (0, 0)).1 * ftp / 100)
            (zones.map fun e => e.2 * ftp / 100) = true →
        ZonesStrictIncr (convertPowerZones ftp zones)) := by
  refine ⟨fun rest maxHr zones => convertZonesAux_contiguous _ zones _,
    fun ftp zones => convertZonesAux_contiguous _ zones _,
    fun rest maxHr zones h => ?_, fun ftp zones h => ?_⟩
  · have hc := chain_jround (chain_of_edgesOneApart _ _ h)
    rw [List.map_map] at hc
    exact convertZonesAux_strictIncr _ zones _ hc
  · have hc := chain_jround (chain_of_edgesOneApart _ _ h)
    rw [List.map_map] at hc
    exact convertZonesAux_strictIncr _ zones _ hc

/-- C8 counterexample: with rest 55 and max 56 (heart-rate reserve 1) the
percentage bands `[[50,60],[60,70]]` are strictly increasing, yet every
scaled edge rounds to 56, so the built table `[(56,56),(56,56)]` is not
strictly increasing (it is still contiguous). -/
theorem convertHeartRateZones_collapse :
    ¬ ZonesStrictIncr (convertHeartRateZones 55 56 [(50, 60), (60, 70)]) := by
  with_unfolding_all decide

/-- Witness for C8 at the spec's sample configurations (rest 55, max 180,
five heart-rate bands; FTP 170, seven power bands). -/
theorem convertZones_spec_witness :
    ZonesStrictIncr
        (convertHeartRateZones 55 180 [(40, 60), (60, 70), (70, 80), (80, 90), (90, 100)]) ∧
      ZonesStrictIncr
        (convertPowerZones 170
          [(0, 54), (55, 75), (76, 87), (88, 94), (95, 105), (106, 120), (121, 1000)]) :=
  ⟨convertZones_spec.2.2.1 55 180 _ (by with_unfolding_all decide),
   convertZones_spec.2.2.2 170 _ (by with_unfolding_all decide)⟩
